import Mathlib

/-!
Shallow embedding of the code-execution sandbox (src/sandbox.py, src/schemas.py,
src/main.py) of the pictoblox-python-backend repository.

The executors interact with the operating system (temporary files, child
processes, the clock).  Those interactions are modelled by an explicit
environment `Env`: the path chosen for the temporary script, whether
`tempfile.NamedTemporaryFile` itself raises (no file exists yet), whether
writing the code into the just-created file raises (the file already exists
on disk), the outcome of the spawned child process, and the wall-clock time
elapsed.  Each executor is a pure function of the code, the timeout and the
environment, returning the result dictionary together with the trace of
filesystem events it performs (temporary-file creation, process spawn,
temporary-file deletion), so that resource claims can be stated on the trace.
In the source the whole `with tempfile.NamedTemporaryFile(...)` block runs
before the `try` whose `finally` deletes the file, so a failure during the
write leaves the created file behind: the trace records the creation with no
matching deletion on that path.
Wall-clock durations are floats in the source; they are modelled as integers,
which is faithful for every value the claims constrain (`timeout` and `0`).
-/

namespace Sandbox

/-- The result dictionary produced by every executor branch in src/sandbox.py
(fields output, error, execution_time, exit_code, success). -/
structure ExecResult where
  output : Option String
  error : Option String
  execution_time : Int
  exit_code : Int
  success : Bool
deriving DecidableEq, Repr

/-- Possible outcomes of the `subprocess.run` call, as seen by the executor:
the child completed with captured stdout, stderr and a return code; the wait
raised `subprocess.TimeoutExpired`; the spawn raised `FileNotFoundError` (the
interpreter binary is missing), carrying the exception message; or some other
exception was raised, carrying its message. -/
inductive ProcOutcome where
  | completed (stdout stderr : String) (returncode : Int)
  | timedOut
  | spawnFailure (msg : String)
  | otherError (msg : String)
deriving DecidableEq, Repr

/-- The environment one executor call runs in: the temporary-file path the OS
hands out; whether `tempfile.NamedTemporaryFile` itself raises (with that
exception's message) before any file exists; whether `f.write(code)` raises
(with that exception's message) after the file has been created on disk with
`delete=False`; the outcome of the spawned process; and the elapsed wall-clock
time `time.time() - start_time` observed on non-timeout branches. -/
structure Env where
  tempPath : String
  createFail : Option String
  writeFail : Option String
  outcome : ProcOutcome
  elapsed : Int
deriving DecidableEq, Repr

/-- Filesystem events an executor performs, recorded in order. -/
inductive Event where
  | createTemp (path : String)
  | spawn (path : String)
  | deleteTemp (path : String)
deriving DecidableEq, Repr

/-- Python truthiness conversion `s if s else None` applied to a captured
stream: the empty string becomes `None`. -/
def strOpt (s : String) : Option String :=
  if s.isEmpty then none else some s

/-- The f-string `f"Execution timed out after {timeout} seconds"`. -/
def timeoutMsg (timeout : Int) : String :=
  "Execution timed out after " ++ toString timeout ++ " seconds"

/-- The dictionary returned by every `except subprocess.TimeoutExpired`
branch in src/sandbox.py. -/
def timeoutResult (timeout : Int) : ExecResult :=
  ⟨none, some (timeoutMsg timeout), timeout, -1, false⟩

/-- `_execute_python_safe` (src/sandbox.py lines 66-117).  Creates the
temporary script and writes the code into it (both before the `try`), spawns
`python` on it, and normalizes the outcome; the `finally` block deletes the
temporary file on every path out of the `try`.  An exception from
`tempfile.NamedTemporaryFile` itself propagates (modelled as `Except.error`)
with no file created; an exception from `f.write(code)` (for example
`UnicodeEncodeError` on a lone surrogate, or a full disk) propagates after
the file already exists, and since the `try`/`finally` was never entered the
created file is not deleted.  `FileNotFoundError` is a subclass of
`Exception`, so a spawn failure is handled by the generic handler: exception
message, exit code 1. -/
def execPythonSafe (code : String) (timeout : Int) (env : Env) :
    Except String ExecResult × List Event :=
  match env.createFail with
  | some m => (.error m, [])
  | none =>
    match env.writeFail with
    | some m => (.error m, [.createTemp env.tempPath])
    | none =>
      match env.outcome with
      | .completed out err rc =>
          (.ok ⟨strOpt out, strOpt err, env.elapsed, rc, rc == 0⟩,
           [.createTemp env.tempPath, .spawn env.tempPath, .deleteTemp env.tempPath])
      | .timedOut =>
          (.ok (timeoutResult timeout),
           [.createTemp env.tempPath, .spawn env.tempPath, .deleteTemp env.tempPath])
      | .spawnFailure m =>
          (.ok ⟨none, some m, env.elapsed, 1, false⟩,
           [.createTemp env.tempPath, .deleteTemp env.tempPath])
      | .otherError m =>
          (.ok ⟨none, some m, env.elapsed, 1, false⟩,
           [.createTemp env.tempPath, .spawn env.tempPath, .deleteTemp env.tempPath])

/-- `_execute_javascript` (src/sandbox.py lines 120-177).  Identical to the
python executor — including the file creation and write happening before the
`try`/`finally`, so a write failure leaves the created file behind — except
that `FileNotFoundError` has its own handler returning the fixed message
"Node.js is not installed or not in PATH" instead of the exception's
message. -/
def execJavascript (code : String) (timeout : Int) (env : Env) :
    Except String ExecResult × List Event :=
  match env.createFail with
  | some m => (.error m, [])
  | none =>
    match env.writeFail with
    | some m => (.error m, [.createTemp env.tempPath])
    | none =>
      match env.outcome with
      | .completed out err rc =>
          (.ok ⟨strOpt out, strOpt err, env.elapsed, rc, rc == 0⟩,
           [.createTemp env.tempPath, .spawn env.tempPath, .deleteTemp env.tempPath])
      | .timedOut =>
          (.ok (timeoutResult timeout),
           [.createTemp env.tempPath, .spawn env.tempPath, .deleteTemp env.tempPath])
      | .spawnFailure _ =>
          (.ok ⟨none, some "Node.js is not installed or not in PATH", env.elapsed, 1, false⟩,
           [.createTemp env.tempPath, .deleteTemp env.tempPath])
      | .otherError m =>
          (.ok ⟨none, some m, env.elapsed, 1, false⟩,
           [.createTemp env.tempPath, .spawn env.tempPath, .deleteTemp env.tempPath])

/-- `execute_python_code` (src/sandbox.py lines 25-63).  Dispatches on the
language before any filesystem or process activity; its `except Exception`
wraps the dispatch, converting any exception propagating from the inner
executors into a failed result with the exception's message and exit code 1. -/
def execute_python_code (code language : String) (timeout : Int) (env : Env) :
    ExecResult × List Event :=
  if language = "python" then
    match execPythonSafe code timeout env with
    | (.ok r, tr) => (r, tr)
    | (.error m, tr) => (⟨none, some m, env.elapsed, 1, false⟩, tr)
  else if language = "javascript" then
    match execJavascript code timeout env with
    | (.ok r, tr) => (r, tr)
    | (.error m, tr) => (⟨none, some m, env.elapsed, 1, false⟩, tr)
  else
    (⟨none, some ("Unsupported language: " ++ language), 0, 1, false⟩, [])

/-- `execute_in_docker` (src/sandbox.py lines 213-274).  Same normalization as
the process executors — including the file creation and write before the
`try`/`finally`, so a write failure leaves the created file behind — with a
dedicated `FileNotFoundError` handler ("Docker is not installed or not in
PATH") but no generic `except Exception`: any other exception propagates to
the caller, although the `finally` block still deletes the temporary file
first. -/
def execute_in_docker (code language : String) (timeout : Int) (env : Env) :
    Except String ExecResult × List Event :=
  match env.createFail with
  | some m => (.error m, [])
  | none =>
    match env.writeFail with
    | some m => (.error m, [.createTemp env.tempPath])
    | none =>
      match env.outcome with
      | .completed out err rc =>
          (.ok ⟨strOpt out, strOpt err, env.elapsed, rc, rc == 0⟩,
           [.createTemp env.tempPath, .spawn env.tempPath, .deleteTemp env.tempPath])
      | .timedOut =>
          (.ok (timeoutResult timeout),
           [.createTemp env.tempPath, .spawn env.tempPath, .deleteTemp env.tempPath])
      | .spawnFailure _ =>
          (.ok ⟨none, some "Docker is not installed or not in PATH", env.elapsed, 1, false⟩,
           [.createTemp env.tempPath, .deleteTemp env.tempPath])
      | .otherError m =>
          (.error m, [.createTemp env.tempPath, .spawn env.tempPath, .deleteTemp env.tempPath])

/-- A trace leaks a temporary script if some created path is never deleted. -/
def leaked (tr : List Event) : Bool :=
  tr.any fun e =>
    match e with
    | .createTemp p => !(tr.contains (.deleteTemp p))
    | _ => false

/-- The denylist scanned by `validate_code_safety` (src/sandbox.py
lines 185-198). -/
def dangerous_patterns : List String :=
  ["import os", "import sys", "import subprocess", "import shutil",
   "import socket", "__import__", "eval(", "exec(", "open(", "file(",
   "input(", "raw_input("]

/-- Python `str.lower()` applied character by character (faithful on the
ASCII range, which covers every denylist pattern). -/
def lowerS (s : String) : String :=
  ⟨s.data.map Char.toLower⟩

/-- Python's substring test `needle in hay`, as a contiguous-sublist check on
the character sequences. -/
def containsSub (hay needle : String) : Bool :=
  go needle.data hay.data
where
  go (n hs : List Char) : Bool :=
    match hs with
    | [] => n.isEmpty
    | _ :: t => n.isPrefixOf hs || go n t

/-- `validate_code_safety` (src/sandbox.py lines 180-206): lowercase the
source text (the local `code_lower`, inlined here), return `(False, message)`
for the first denylist pattern found as a substring, and `(True, None)` when
none matches. -/
def validate_code_safety (code : String) : Bool × Option String :=
  match dangerous_patterns.find? (fun p => containsSub (lowerS code) (lowerS p)) with
  | some p => (false, some ("Potentially dangerous code pattern detected: " ++ p))
  | none => (true, none)

/-- The language allow-list of the `CodeExecution` schema validator
(src/schemas.py lines 176-183). -/
def allowed_languages : List String := ["python", "javascript"]

/-- Pydantic validation of a `CodeExecution` request body (src/schemas.py
lines 172-183): `timeout: int = Field(default=10, ge=1, le=60)` together with
the language allow-list validator.  A request failing either check is rejected
before reaching the endpoint body. -/
def codeExecutionValid (code language : String) (timeout : Int) : Bool :=
  (decide (1 ≤ timeout) && decide (timeout ≤ 60)) && allowed_languages.contains language

/-- The `/api/v1/execute` endpoint body (src/main.py lines 249-276): for a
request the schema accepts, call `execute_python_code` with exactly the
validated fields and return its result (the execution-log insert keeps no
part of the control flow); a request the schema rejects never reaches the
body, modelled as `none`. -/
def execute_code_endpoint (code language : String) (timeout : Int) (env : Env) :
    Option (ExecResult × List Event) :=
  if codeExecutionValid code language timeout then
    some (execute_python_code code language timeout env)
  else
    none

/-! ### Helper lemmas -/

theorem toNat_ofNat_valid {n : Nat} (h : n.isValidChar) : (Char.ofNat n).toNat = n := by
  rw [Char.ofNat, dif_pos h]
  rfl

theorem toLower_idem (c : Char) : Char.toLower (Char.toLower c) = Char.toLower c := by
  simp only [Char.toLower]
  by_cases h : c.toNat ≥ 65 ∧ c.toNat ≤ 90
  · have hv : (c.toNat + 32).isValidChar := Or.inl (by omega)
    rw [if_pos h, toNat_ofNat_valid hv, if_neg (by omega)]
  · rw [if_neg h, if_neg h]

theorem map_toLower_idem (l : List Char) :
    (l.map Char.toLower).map Char.toLower = l.map Char.toLower := by
  induction l with
  | nil => rfl
  | cons c t ih => simp [List.map, ih, toLower_idem]

theorem lowerS_idem (s : String) : lowerS (lowerS s) = lowerS s := by
  simp only [lowerS]
  exact congrArg String.mk (map_toLower_idem s.data)

/-! ### Claim theorems -/

/-- C1 (counterexample): the claimed invariant
`success == (exit_code == 0 and error is empty)` fails on the code: a guest
process that exits 0 while writing to stderr (here `"warning"`) yields
`success = true` with a non-empty `error` field. -/
theorem C1_counterexample :
    ¬ (let r := (execute_python_code "print(1)" "python" 10
          ⟨"/tmp/s.py", none, none, .completed "" "warning" 0, 1⟩).1
       r.success = true ↔ (r.exit_code = 0 ∧ r.error.getD "" = "")) := by
  decide

/-- C1 (amended): in every branch of `execute_python_code` (natural
completion, timeout, spawn failure, unsupported language, caught exception),
the `success` field equals `exit_code == 0`; the `error` field plays no role
in `success`. -/
theorem C1_success_iff_exit_zero (code language : String) (timeout : Int) (env : Env) :
    ((execute_python_code code language timeout env).1).success
      = (((execute_python_code code language timeout env).1).exit_code == 0) := by
  obtain ⟨tp, cf, wf, oc, el⟩ := env
  cases cf <;> cases wf <;> cases oc <;>
    simp only [execute_python_code, execPythonSafe, execJavascript, timeoutResult] <;>
    split <;> first | rfl | (split <;> rfl)

/-- C2 (amended): for both supported languages, whenever setup succeeds and
the wait raises the timeout condition, the executor returns exactly
`ExecutionResult(output=None, error="Execution timed out after {timeout}
seconds", execution_time=timeout, exit_code=-1, success=False)`; and the
executor's own error branches produce `exit_code = -1` only on timeout,
although a naturally completed guest process whose reported return code is
`-1` (killed by signal 1) also yields `exit_code = -1`. -/
theorem C2_timeout_branch (code language : String) (timeout : Int) (env : Env)
    (hl : language = "python" ∨ language = "javascript") :
    (env.createFail = none → env.writeFail = none → env.outcome = .timedOut →
      (execute_python_code code language timeout env).1 = timeoutResult timeout)
    ∧ (((execute_python_code code language timeout env).1).exit_code = -1 →
        env.outcome = .timedOut
        ∨ ∃ out err, env.outcome = .completed out err (-1)) := by
  obtain ⟨tp, cf, wf, oc, el⟩ := env
  rcases hl with rfl | rfl <;> cases cf <;> cases wf <;> cases oc <;>
    constructor <;>
    simp_all [execute_python_code, execPythonSafe, execJavascript, timeoutResult]

/-- C2 (witness): a python run whose wait times out at 3 seconds returns the
exact timeout result. -/
theorem C2_timeout_branch_witness :
    (execute_python_code "while True: pass" "python" 3
        ⟨"/tmp/s.py", none, none, .timedOut, 3⟩).1 = timeoutResult 3 :=
  (C2_timeout_branch "while True: pass" "python" 3
      ⟨"/tmp/s.py", none, none, .timedOut, 3⟩ (Or.inl rfl)).1 rfl rfl rfl

/-- C2 (counterexample): `exit_code = -1` is not produced only on the timeout
branch: a guest process killed by signal 1 reports return code `-1` to
`subprocess.run`, and the natural-completion branch passes it through, with a
result different from the timeout result. -/
theorem C2_counterexample :
    ((execute_python_code "import os" "python" 5
        ⟨"/tmp/s.py", none, none, .completed "" "" (-1), 2⟩).1).exit_code = -1
    ∧ (Env.mk "/tmp/s.py" none none (.completed "" "" (-1)) 2).outcome ≠ .timedOut
    ∧ (execute_python_code "import os" "python" 5
        ⟨"/tmp/s.py", none, none, .completed "" "" (-1), 2⟩).1 ≠ timeoutResult 5 := by
  decide

/-- C3: for every language outside the supported set, `execute_python_code`
returns exactly `ExecutionResult(success=False, exit_code=1,
error="Unsupported language: <x>")` with an empty event trace: no process is
spawned and no temporary file is created. -/
theorem C3_unsupported_language (code language : String) (timeout : Int) (env : Env)
    (h1 : language ≠ "python") (h2 : language ≠ "javascript") :
    execute_python_code code language timeout env
      = (⟨none, some ("Unsupported language: " ++ language), 0, 1, false⟩, []) := by
  simp [execute_python_code, h1, h2]

/-- C3 (witness): requesting language `"ruby"` yields the structured
unsupported-language failure with no filesystem or process events. -/
theorem C3_unsupported_language_witness :
    execute_python_code "puts 1" "ruby" 7 ⟨"/tmp/s", none, none, .timedOut, 0⟩
      = (⟨none, some ("Unsupported language: " ++ "ruby"), 0, 1, false⟩, []) :=
  C3_unsupported_language "puts 1" "ruby" 7 ⟨"/tmp/s", none, none, .timedOut, 0⟩
    (by decide) (by decide)

/-- C4 (counterexample): the scoped-resource guarantee fails on the code: the
temporary file is created and the code written into it before the
`try`/`finally` that deletes it, so when `f.write(code)` raises — here the
`UnicodeEncodeError` produced by a lone surrogate in the submitted code — the
created script is never deleted, even though `execute_python_code` still
returns a structured failure result to its caller. -/
theorem C4_counterexample :
    leaked (execute_python_code "s = x" "python" 5
        ⟨"/tmp/s.py", none, some "UnicodeEncodeError: surrogates not allowed",
         .timedOut, 1⟩).2 = true
    ∧ (execute_python_code "s = x" "python" 5
        ⟨"/tmp/s.py", none, some "UnicodeEncodeError: surrogates not allowed",
         .timedOut, 1⟩).1
      = ⟨none, some "UnicodeEncodeError: surrogates not allowed", 1, 1, false⟩ := by
  decide

/-- C4 (amended): whenever writing the code into the just-created temporary
file succeeds, the script is deleted before the call returns on every exit
path — natural completion, guest failure, timeout, spawn failure, and any
exception raised inside the `try` — for both `execute_python_code` (covering
the python and javascript process executors) and `execute_in_docker`; only an
exception raised by the write itself, which precedes the `try`/`finally`,
leaks the created script. -/
theorem C4_no_temp_leak (code language : String) (timeout : Int) (env : Env)
    (hw : env.writeFail = none) :
    leaked (execute_python_code code language timeout env).2 = false
    ∧ leaked (execute_in_docker code language timeout env).2 = false := by
  obtain ⟨tp, cf, wf, oc, el⟩ := env
  subst hw
  refine ⟨?_, ?_⟩
  · by_cases h1 : language = "python"
    · subst h1
      cases cf <;> cases oc <;>
        simp [execute_python_code, execPythonSafe, leaked]
    · by_cases h2 : language = "javascript"
      · subst h2
        cases cf <;> cases oc <;>
          simp [execute_python_code, execJavascript, leaked, h1]
      · simp [execute_python_code, h1, h2, leaked]
  · cases cf <;> cases oc <;>
      simp [execute_in_docker, leaked]

/-- C4 (witness): a python run that times out — an exit path that does enter
the `try` — deletes its temporary script in both backends. -/
theorem C4_no_temp_leak_witness :
    leaked (execute_python_code "print(1)" "python" 5
        ⟨"/tmp/s.py", none, none, .timedOut, 1⟩).2 = false
    ∧ leaked (execute_in_docker "print(1)" "python" 5
        ⟨"/tmp/s.py", none, none, .timedOut, 1⟩).2 = false :=
  C4_no_temp_leak "print(1)" "python" 5 ⟨"/tmp/s.py", none, none, .timedOut, 1⟩ rfl

/-- C5 (counterexample): a spawn failure of the javascript executor is not
reported with the exception's message: the `FileNotFoundError` raised when
the `node` binary is missing carries the message
`"No such file or directory: node"`, yet the returned `error` field is the
fixed string `"Node.js is not installed or not in PATH"`. -/
theorem C5_counterexample :
    ((execute_python_code "1+1" "javascript" 5
        ⟨"/tmp/s.js", none, none,
         .spawnFailure "No such file or directory: node", 1⟩).1).error
      = some "Node.js is not installed or not in PATH"
    ∧ ((execute_python_code "1+1" "javascript" 5
        ⟨"/tmp/s.js", none, none,
         .spawnFailure "No such file or directory: node", 1⟩).1).error
      ≠ some "No such file or directory: node" := by
  decide

/-- C5 (amended): `execute_python_code` never raises: every failure is
converted into a structured result with `success = false`, carrying
`exit_code = 1` for non-timeout failures; setup exceptions (whether the
temporary-file creation or the write into it raises) and generic runtime
exceptions report the exception's message as `error`, and so does a python
spawn failure, while a javascript spawn failure instead reports the fixed
message `"Node.js is not installed or not in PATH"`. -/
theorem C5_structured_failures (code language : String) (timeout : Int) (env : Env)
    (hl : language = "python" ∨ language = "javascript") :
    (∀ m, env.createFail = some m →
      (execute_python_code code language timeout env).1
        = ⟨none, some m, env.elapsed, 1, false⟩)
    ∧ (∀ m, env.createFail = none → env.writeFail = some m →
      (execute_python_code code language timeout env).1
        = ⟨none, some m, env.elapsed, 1, false⟩)
    ∧ (∀ m, env.createFail = none → env.writeFail = none →
        env.outcome = .otherError m →
      (execute_python_code code language timeout env).1
        = ⟨none, some m, env.elapsed, 1, false⟩)
    ∧ (∀ m, env.createFail = none → env.writeFail = none →
        env.outcome = .spawnFailure m →
      (execute_python_code code language timeout env).1
        = ⟨none, some (if language = "javascript"
              then "Node.js is not installed or not in PATH" else m),
            env.elapsed, 1, false⟩)
    ∧ (env.createFail = none → env.writeFail = none → env.outcome = .timedOut →
      (execute_python_code code language timeout env).1 = timeoutResult timeout) := by
  obtain ⟨tp, cf, wf, oc, el⟩ := env
  rcases hl with rfl | rfl <;> cases cf <;> cases wf <;> cases oc <;>
    refine ⟨fun m hm => ?_, fun m hc hw => ?_, fun m hc hw ho => ?_,
      fun m hc hw ho => ?_, fun hc hw ho => ?_⟩ <;>
    simp_all [execute_python_code, execPythonSafe, execJavascript, timeoutResult]

/-- C5 (witness): a generic exception with message `"boom"` during a python
execution is converted into the structured failure result. -/
theorem C5_structured_failures_witness :
    (execute_python_code "x = 1" "python" 5
        ⟨"/tmp/s.py", none, none, .otherError "boom", 2⟩).1
      = ⟨none, some "boom", 2, 1, false⟩ :=
  (C5_structured_failures "x = 1" "python" 5
      ⟨"/tmp/s.py", none, none, .otherError "boom", 2⟩ (Or.inl rfl)).2.2.1
    "boom" rfl rfl rfl

/-- C6: on natural completion within the deadline, for both supported
languages, the result's `output` is `None` exactly when the captured stdout is
the empty string and otherwise equals it verbatim, and symmetrically for
`error` and the captured stderr. -/
theorem C6_output_error_nullability (code language : String) (timeout : Int)
    (env : Env) (out err : String) (rc : Int) (r : ExecResult)
    (hl : language = "python" ∨ language = "javascript")
    (hc : env.createFail = none) (hw : env.writeFail = none)
    (ho : env.outcome = .completed out err rc)
    (hr : r = (execute_python_code code language timeout env).1) :
    (r.output = none ↔ out = "") ∧ (out ≠ "" → r.output = some out)
    ∧ (r.error = none ↔ err = "") ∧ (err ≠ "" → r.error = some err) := by
  obtain ⟨tp, cf, wf, oc, el⟩ := env
  subst hc hw ho hr
  rcases hl with rfl | rfl <;>
    simp [execute_python_code, execPythonSafe, execJavascript, strOpt,
      String.isEmpty_iff]

/-- C6 (witness): a python run producing only stdout `"hi\n"` yields
`output = "hi\n"` and `error = None`. -/
theorem C6_output_error_nullability_witness :
    ((execute_python_code "print(1)" "python" 10
        ⟨"/tmp/s.py", none, none, .completed "hi\n" "" 0, 1⟩).1).output = some "hi\n"
    ∧ ((execute_python_code "print(1)" "python" 10
        ⟨"/tmp/s.py", none, none, .completed "hi\n" "" 0, 1⟩).1).error = none :=
  ⟨(C6_output_error_nullability "print(1)" "python" 10
        ⟨"/tmp/s.py", none, none, .completed "hi\n" "" 0, 1⟩ "hi\n" "" 0 _
        (Or.inl rfl) rfl rfl rfl rfl).2.1 (by decide),
   (C6_output_error_nullability "print(1)" "python" 10
        ⟨"/tmp/s.py", none, none, .completed "hi\n" "" 0, 1⟩ "hi\n" "" 0 _
        (Or.inl rfl) rfl rfl rfl rfl).2.2.1.mpr rfl⟩

/-- C7: every request body accepted by the `CodeExecution` schema has an
integer timeout with `1 ≤ timeout ≤ 60`, and the execute endpoint passes
exactly this validated timeout to the executor. -/
theorem C7_timeout_validated (code language : String) (timeout : Int) (env : Env)
    (h : codeExecutionValid code language timeout = true) :
    (1 ≤ timeout ∧ timeout ≤ 60)
    ∧ execute_code_endpoint code language timeout env
        = some (execute_python_code code language timeout env) := by
  refine ⟨?_, by simp [execute_code_endpoint, h]⟩
  simp only [codeExecutionValid, Bool.and_eq_true, decide_eq_true_eq] at h
  exact h.1

/-- C7 (witness): the schema accepts timeout 10 with python, and the endpoint
hands exactly that timeout to the executor. -/
theorem C7_timeout_validated_witness :
    ((1 : Int) ≤ 10 ∧ (10 : Int) ≤ 60)
    ∧ execute_code_endpoint "print(1)" "python" 10
        ⟨"/tmp/s.py", none, none, .completed "1\n" "" 0, 1⟩
      = some (execute_python_code "print(1)" "python" 10
          ⟨"/tmp/s.py", none, none, .completed "1\n" "" 0, 1⟩) :=
  C7_timeout_validated "print(1)" "python" 10
    ⟨"/tmp/s.py", none, none, .completed "1\n" "" 0, 1⟩ (by decide)

/-- C8: `validate_code_safety` returns `(False, reason)` — with the reason a
fixed non-empty message naming the detected pattern — exactly when the
lowercased source text contains some denylist pattern as a substring, and
returns `(True, None)` otherwise. -/
theorem C8_validate_denylist (code : String) :
    ((validate_code_safety code).1 = false ↔
      ∃ p ∈ dangerous_patterns, containsSub (lowerS code) (lowerS p) = true)
    ∧ ((validate_code_safety code).1 = false →
      ∃ p ∈ dangerous_patterns,
        (validate_code_safety code).2
          = some ("Potentially dangerous code pattern detected: " ++ p)
        ∧ ("Potentially dangerous code pattern detected: " ++ p) ≠ "")
    ∧ ((validate_code_safety code).1 = true →
      validate_code_safety code = (true, none)) := by
  cases hf : dangerous_patterns.find?
      (fun p => containsSub (lowerS code) (lowerS p)) with
  | none =>
    have hv : validate_code_safety code = (true, none) := by
      unfold validate_code_safety
      rw [hf]
    rw [hv]
    refine ⟨⟨fun h => by simp at h, fun ⟨p, hp, hc⟩ => ?_⟩,
      fun h => by simp at h, fun _ => rfl⟩
    have := List.find?_eq_none.mp hf p hp
    simp [hc] at this
  | some p =>
    have hv : validate_code_safety code
        = (false, some ("Potentially dangerous code pattern detected: " ++ p)) := by
      unfold validate_code_safety
      rw [hf]
    have hmem : p ∈ dangerous_patterns := List.mem_of_find?_eq_some hf
    have hsat : containsSub (lowerS code) (lowerS p) = true := by
      have h2 := List.find?_some hf
      simpa using h2
    rw [hv]
    refine ⟨⟨fun _ => ⟨p, hmem, hsat⟩, fun _ => rfl⟩,
      fun _ => ⟨p, hmem, rfl, ?_⟩, fun h => by simp at h⟩
    intro hcontra
    have hlen := congrArg String.length hcontra
    rw [String.length_append] at hlen
    have h0 : ("Potentially dangerous code pattern detected: " : String).length ≠ 0 := by
      decide
    have h1 : ("" : String).length = 0 := rfl
    omega

/-- C8 (witness): `"Eval(1)"` contains the pattern `"eval("` after
lowercasing, so the validator flags it. -/
theorem C8_validate_denylist_witness :
    (validate_code_safety "Eval(1)").1 = false :=
  (C8_validate_denylist "Eval(1)").1.mpr ⟨"eval(", by decide, by decide⟩

/-- C9: the `/api/v1/execute` endpoint invokes the executor for every
schema-valid request without consulting `validate_code_safety`: even for code
the advisory validator flags as unsafe, the response is exactly
`execute_python_code(code, language, timeout)`. -/
theorem C9_endpoint_ignores_validator (code language : String) (timeout : Int)
    (env : Env)
    (hvalid : codeExecutionValid code language timeout = true)
    (hflag : (validate_code_safety code).1 = false) :
    execute_code_endpoint code language timeout env
      = some (execute_python_code code language timeout env) := by
  simp [execute_code_endpoint, hvalid]

/-- C9 (witness): `"import os"` is flagged unsafe by the validator, yet the
endpoint still returns the executor's result for it. -/
theorem C9_endpoint_ignores_validator_witness :
    execute_code_endpoint "import os" "python" 10
        ⟨"/tmp/s.py", none, none, .completed "" "" 0, 1⟩
      = some (execute_python_code "import os" "python" 10
          ⟨"/tmp/s.py", none, none, .completed "" "" 0, 1⟩) :=
  C9_endpoint_ignores_validator "import os" "python" 10
    ⟨"/tmp/s.py", none, none, .completed "" "" 0, 1⟩ (by decide) (by decide)

/-- C10: `validate_code_safety` is case-insensitive: it returns the same
`(is_safe, reason)` pair on a source text and on its lowercased form. -/
theorem C10_case_insensitive (code : String) :
    validate_code_safety code = validate_code_safety (lowerS code) := by
  unfold validate_code_safety
  rw [lowerS_idem]

end Sandbox
